import Mathlib

/-!
Verification of the job-status polling and persistence loop of the
runway-avatars server (`src/server/api/movingAvatar/index.ts`, the
single-task lookup handler, and the `generatedAvatar` type).

The TypeScript handlers are shallowly embedded as pure Lean functions:
the key-value storage becomes an explicit list state, the remote client
becomes an oracle record, promises become `Except`, and the unbounded
do-while polling loop becomes a fuel-indexed recursion whose second
component records whether the guard ended the loop within the fuel.
-/

namespace RunwayAvatars

/-- Job status union, from the `generatedAvatar` type declaration
(`status: "SUCCEEDED" | "FAILED" | "CANCELLED" | "PENDING" | "RUNNING" | "THROTTLED"`). -/
inductive Status where
  | SUCCEEDED
  | FAILED
  | CANCELLED
  | PENDING
  | RUNNING
  | THROTTLED
deriving DecidableEq, Repr

/-- Job record, from the `generatedAvatar` type declaration: `id: string`,
the status union, `createdAt` (modelled by the numeric time value that
`new Date(createdAt).getTime()` yields, since it is only ever compared
through that conversion), and the optional `output: string[]`. -/
structure generatedAvatar where
  id : String
  status : Status
  createdAt : Nat
  output : Option (List String)
deriving DecidableEq, Repr

/-- Literal list of the do-while guard `["SUCCEEDED", "FAILED"]`
(src/server/api/movingAvatar/index.ts, line 43). -/
def guardStatuses : List Status := [Status.SUCCEEDED, Status.FAILED]

/-- Value of the guard expression
`!["SUCCEEDED", "FAILED"].includes(task.status)`: `true` exactly when the
do-while loop runs another iteration. -/
def continuePolling (task : generatedAvatar) : Bool :=
  ! guardStatuses.contains task.status

/-- Embeds `saveTaskToStorage` (src/server/api/movingAvatar/index.ts,
lines 56-63): `findIndex((a) => a.id === task.id)` on the stored list, then
`existingAvatars[index === -1 ? existingAvatars.length : index] = task` —
a JS assignment at index `length` appends, an assignment at a found index
replaces in place. `List.findIdx?` returns `none` exactly when `findIndex`
returns `-1`. -/
def saveTaskToStorage (task : generatedAvatar)
    (existingAvatars : List generatedAvatar) : List generatedAvatar :=
  match existingAvatars.findIdx? (fun a => a.id == task.id) with
  | none => existingAvatars ++ [task]
  | some index => existingAvatars.set index task

/-- Embeds the listing handler (src/server/api/movingAvatar/index.ts,
lines 3-17): each storage key yields a possibly-null item; the handler
filters out nulls (`filter((item) => item !== null)`, here `filterMap`)
and sorts with the comparator
`new Date(a.createdAt).getTime() - new Date(b.createdAt).getTime()`,
i.e. ascending in the time value. -/
def listHandler (allItems : List (Option generatedAvatar)) :
    List generatedAvatar :=
  (allItems.filterMap (fun item => item)).mergeSort
    (fun a b => a.createdAt ≤ b.createdAt)

/-- Job handle returned by `runway.imageToVideo.create`: only its `id` is
used by the handlers. -/
structure JobHandle where
  id : String
deriving DecidableEq, Repr

/-- Remote Job Client oracle: `create` receives the possibly absent
`promptImage` together with the prompt text and the duration, and
`retrieve` is the single synchronous confirmation fetch by id. A rejected
promise is the `Except.error` case. -/
structure RunwayClient where
  create : Option String → String → Nat → Except String JobHandle
  retrieve : String → Except String generatedAvatar

/-- Request body of the submission endpoint; the `url` field may be
missing (`body?.url`). -/
structure ReqBody where
  url : Option String
deriving DecidableEq, Repr

/-- Fixed prompt text of the generate handler. -/
def fixedPrompt : String :=
  "A moving avatar that looks around subtly, blinks, looks forward, and seems to be looking at the camera, seemless loop, centered with space on either side"

/-- Error response produced by `createError({statusCode, statusMessage})`. -/
structure ErrResp where
  statusCode : Nat
  statusMessage : String
deriving DecidableEq, Repr

/-- Outcome of the synchronous part of the generate handler: the value
returned or thrown, the state of the stored list, and how many times
`runway.imageToVideo.create` was called while handling the request. -/
structure GenOutcome where
  response : Except ErrResp generatedAvatar
  store : List generatedAvatar
  createCalls : Nat

/-- Embeds the synchronous part of the generate handler
(src/server/api/movingAvatar/index.ts, lines 18-54): read `body?.url`
(no presence check), call `runway.imageToVideo.create` with it, fetch the
task once with `runway.tasks.retrieve`, persist it with
`saveTaskToStorage`, and return it; any rejection is caught and becomes
`createError({statusCode: 500, statusMessage: "Failed to generate moving avatar"})`,
in which case nothing was persisted. Every path calls `create` exactly
once — the source contains no retry. -/
def generate (client : RunwayClient) (body : Option ReqBody)
    (store : List generatedAvatar) : GenOutcome :=
  let imageUrl : Option String := body.bind ReqBody.url
  match client.create imageUrl fixedPrompt 5 with
  | Except.error _ =>
    ⟨Except.error ⟨500, "Failed to generate moving avatar"⟩, store, 1⟩
  | Except.ok imageToVideo =>
    match client.retrieve imageToVideo.id with
    | Except.error _ =>
      ⟨Except.error ⟨500, "Failed to generate moving avatar"⟩, store, 1⟩
    | Except.ok task =>
      ⟨Except.ok task, saveTaskToStorage task store, 1⟩

/-- Embeds the detached polling loop spawned through `event.waitUntil`
(src/server/api/movingAvatar/index.ts, lines 37-45):
`do { await sleep(1000); task = await runway.tasks.retrieve(id); saveTaskToStorage(task); } while (!["SUCCEEDED", "FAILED"].includes(task.status))`.
`retrieve n` is the record the remote service returns to the in-loop fetch
of iteration `i + n`; `fuel` bounds how many iterations are unfolded. The
boolean is `true` when the guard ended the loop within `fuel` iterations
and `false` when the loop is still running after `fuel` iterations. -/
def pollRun (retrieve : Nat → generatedAvatar) (i : Nat)
    (store : List generatedAvatar) : Nat → List generatedAvatar × Bool
  | 0 => (store, false)
  | fuel + 1 =>
    let task := retrieve i
    let store2 := saveTaskToStorage task store
    if continuePolling task then pollRun retrieve (i + 1) store2 fuel
    else (store2, true)

/-- Observable actions of the polling loop, in execution order. -/
inductive PollEvent where
  | sleep (ms : Nat)
  | fetch (n : Nat)
  | persist (n : Nat)
deriving DecidableEq, Repr

/-- Event trace of the do-while polling loop, truncated after `fuel`
iterations: the body runs `await sleep(1000)`, then the fetch, then the
persist, and only then is the guard tested. -/
def pollEvents (retrieve : Nat → generatedAvatar) (i : Nat) :
    Nat → List PollEvent
  | 0 => []
  | fuel + 1 =>
    PollEvent.sleep 1000 :: PollEvent.fetch i :: PollEvent.persist i ::
      (if continuePolling (retrieve i) then pollEvents retrieve (i + 1) fuel
       else [])

/-- Modelled from the spec: the per-iteration order claimed by the
sentence "Each iteration is fully sequential:
fetch-then-persist-then-sleep-then-repeat" — the fetch first, then the
persist, then the 1-second sleep, repeated while the guard holds. This is
the claimed order to be compared with `pollEvents`, which follows the
source. -/
def claimedPollEvents (retrieve : Nat → generatedAvatar) (i : Nat) :
    Nat → List PollEvent
  | 0 => []
  | fuel + 1 =>
    PollEvent.fetch i :: PollEvent.persist i :: PollEvent.sleep 1000 ::
      (if continuePolling (retrieve i) then claimedPollEvents retrieve (i + 1) fuel
       else [])

/-- Full submission handler: the synchronous part followed, on success, by
the detached polling loop running on the just-persisted store. The first
component is the response the caller receives; it is produced before the
loop runs, so `fuel` and `pollRetrieve` only affect the second component. -/
def handleGenerate (client : RunwayClient)
    (pollRetrieve : Nat → generatedAvatar) (body : Option ReqBody)
    (store : List generatedAvatar) (fuel : Nat) :
    Except ErrResp generatedAvatar × List generatedAvatar :=
  let g := generate client body store
  match g.response with
  | Except.ok task => (Except.ok task, (pollRun pollRetrieve 0 g.store fuel).1)
  | Except.error e => (Except.error e, g.store)

/-- Embeds the single-task lookup handler (src/unnamed/part_001):
`getRouterParam(event, "id")` modelled as an optional string; the JS test
`if (!taskId)` is true both when the param is absent and when it is the
empty string (falsiness), and throws
`createError({statusCode: 400, statusMessage: "Task ID is required"})`;
otherwise the handler returns `runway.tasks.retrieve(taskId)` unchanged.
The storage state is passed through to show the handler never touches it. -/
def lookupHandler (client : RunwayClient) (taskId : Option String)
    (store : List generatedAvatar) :
    Except ErrResp (Except String generatedAvatar) × List generatedAvatar :=
  match taskId with
  | none => (Except.error ⟨400, "Task ID is required"⟩, store)
  | some tid =>
    if tid == "" then (Except.error ⟨400, "Task ID is required"⟩, store)
    else (Except.ok (client.retrieve tid), store)

end RunwayAvatars

namespace RunwayAvatars

/-- Sample records and clients used to instantiate the theorems. -/
def samplePend : generatedAvatar := ⟨"job1", Status.PENDING, 0, none⟩

/-- Sample record with a terminal SUCCEEDED status. -/
def sampleSucc : generatedAvatar := ⟨"job1", Status.SUCCEEDED, 3, some ["video.mp4"]⟩

/-- Sample record with the CANCELLED status. -/
def sampleCanc : generatedAvatar := ⟨"job1", Status.CANCELLED, 1, none⟩

/-- Sample record with a distinct id. -/
def sampleOther : generatedAvatar := ⟨"job2", Status.RUNNING, 2, none⟩

/-- Client whose calls all succeed; the confirmation fetch yields a pending record. -/
def cOk : RunwayClient :=
  ⟨fun _ _ _ => Except.ok ⟨"job1"⟩, fun _ => Except.ok samplePend⟩

/-- Client whose calls all succeed; the confirmation fetch yields a succeeded record. -/
def cOkSucc : RunwayClient :=
  ⟨fun _ _ _ => Except.ok ⟨"job1"⟩, fun _ => Except.ok sampleSucc⟩

/-- Client whose create call rejects. -/
def cErr : RunwayClient :=
  ⟨fun _ _ _ => Except.error "network down", fun _ => Except.ok samplePend⟩

/-- Helper: setting a position of a list to the value it already holds is the
identity. -/
lemma set_getElem_self {α : Type} (l : List α) (i : Nat) (a : α)
    (hi : i < l.length) (ha : l[i] = a) : l.set i a = l := by
  apply List.ext_getElem
  · simp
  · intro j h1 h2
    rw [List.getElem_set]
    by_cases hij : i = j
    · subst hij
      simp [ha]
    · simp [hij]

/-- Helper: the guard is false exactly on the statuses of the literal list. -/
lemma continuePolling_eq_false_iff (t : generatedAvatar) :
    continuePolling t = false ↔
      t.status = Status.SUCCEEDED ∨ t.status = Status.FAILED := by
  cases t with
  | mk id s c o => cases s <;> simp [continuePolling, guardStatuses]

/-- Helper: when no stored record has the written id, the write appends. -/
lemma save_eq_append (task : generatedAvatar) (l : List generatedAvatar)
    (h : ∀ a ∈ l, a.id ≠ task.id) :
    saveTaskToStorage task l = l ++ [task] := by
  have hf : l.findIdx? (fun a => a.id == task.id) = none := by
    rw [List.findIdx?_eq_none_iff]
    intro x hx
    simpa using h x hx
  simp [saveTaskToStorage, hf]

/-- Helper: when some stored record has the written id, the write replaces the
first such record in place. -/
lemma save_eq_set (task : generatedAvatar) (l : List generatedAvatar)
    (h : ∃ a ∈ l, a.id = task.id) :
    ∃ i, ∃ hi : i < l.length, l[i].id = task.id ∧
      saveTaskToStorage task l = l.set i task := by
  cases hfi : l.findIdx? (fun a => a.id == task.id) with
  | none =>
    exfalso
    rw [List.findIdx?_eq_none_iff] at hfi
    rcases h with ⟨a, ha, hid⟩
    have := hfi a ha
    simp [hid] at this
  | some i =>
    rw [List.findIdx?_eq_some_iff_findIdx_eq] at hfi
    rcases hfi with ⟨hlen, hidx⟩
    have hw : List.findIdx (fun a => a.id == task.id) l < l.length := by
      rw [hidx]; exact hlen
    have hp := @List.findIdx_getElem _ (fun a => a.id == task.id) l hw
    refine ⟨i, hlen, ?_, ?_⟩
    · have hp2 : (l[i].id == task.id) = true := by
        simp only [hidx] at hp
        exact hp
      simpa using hp2
    · have hfi2 : l.findIdx? (fun a => a.id == task.id) = some i := by
        rw [List.findIdx?_eq_some_iff_findIdx_eq]
        exact ⟨hlen, hidx⟩
      simp [saveTaskToStorage, hfi2]

/-- Helper: the upsert preserves distinctness of stored ids. -/
lemma save_nodup (task : generatedAvatar) (l : List generatedAvatar)
    (h : (l.map generatedAvatar.id).Nodup) :
    ((saveTaskToStorage task l).map generatedAvatar.id).Nodup := by
  by_cases hmem : ∃ a ∈ l, a.id = task.id
  · rcases save_eq_set task l hmem with ⟨i, hi, hid, heq⟩
    rw [heq, List.map_set]
    rw [set_getElem_self]
    · exact h
    · simpa using hi
    · simp [hid]
  · push_neg at hmem
    rw [save_eq_append task l hmem, List.map_append]
    rw [List.nodup_append]
    refine ⟨h, by simp, ?_⟩
    intro x hx hx2
    simp at hx2
    subst hx2
    simp at hx
    rcases hx with ⟨a, ha, hid⟩
    exact hmem a ha hid

/-- Helper: any fold of upserts starting from a duplicate-free list keeps the
stored ids duplicate-free. -/
lemma nodup_foldl_save (tasks : List generatedAvatar)
    (start : List generatedAvatar)
    (h : (start.map generatedAvatar.id).Nodup) :
    ((tasks.foldl (fun s t => saveTaskToStorage t s) start).map
      generatedAvatar.id).Nodup := by
  induction tasks generalizing start with
  | nil => simpa using h
  | cons t ts ih => exact ih _ (save_nodup t start h)

end RunwayAvatars

namespace RunwayAvatars

/-- C2: `saveTaskToStorage` is a merge-safe upsert by id — the record lands at
the index of an existing record with the same id when one exists, else it is
appended at the end, and any sequence of such writes starting from the empty
list keeps exactly one stored record per id. -/
theorem C2_save_merge_safe_upsert (task : generatedAvatar)
    (l : List generatedAvatar) (tasks : List generatedAvatar) :
    ((∀ a ∈ l, a.id ≠ task.id) → saveTaskToStorage task l = l ++ [task])
    ∧ ((∃ a ∈ l, a.id = task.id) →
        ∃ i, ∃ hi : i < l.length, l[i].id = task.id ∧
          saveTaskToStorage task l = l.set i task)
    ∧ ((tasks.foldl (fun s t => saveTaskToStorage t s) []).map
        generatedAvatar.id).Nodup :=
  ⟨save_eq_append task l, save_eq_set task l,
    nodup_foldl_save tasks [] (by simp)⟩

/-- C2 witness at concrete inputs: an append when the id is new, and no
duplicate ids after a sequence of writes that rewrites an existing id. -/
theorem C2_save_merge_safe_upsert_witness :
    saveTaskToStorage sampleOther [samplePend] = [samplePend] ++ [sampleOther]
    ∧ (([samplePend, sampleOther, sampleSucc].foldl
        (fun s t => saveTaskToStorage t s) []).map generatedAvatar.id).Nodup :=
  ⟨(C2_save_merge_safe_upsert sampleOther [samplePend] []).1 (by decide),
    (C2_save_merge_safe_upsert sampleOther [samplePend]
      [samplePend, sampleOther, sampleSucc]).2.2⟩

/-- C10: the frame of the upsert — writing an existing id keeps every record
with a different id unchanged at its original position and keeps the length;
writing a new id appends, keeping every existing record and its position. -/
theorem C10_save_frame (task : generatedAvatar) (l : List generatedAvatar) :
    ((∃ a ∈ l, a.id = task.id) →
      (saveTaskToStorage task l).length = l.length
      ∧ ∀ j, ∀ hj : j < l.length, l[j].id ≠ task.id →
          (saveTaskToStorage task l)[j]? = some l[j])
    ∧ ((∀ a ∈ l, a.id ≠ task.id) →
        saveTaskToStorage task l = l ++ [task]
        ∧ (saveTaskToStorage task l).length = l.length + 1
        ∧ ∀ j, ∀ hj : j < l.length,
            (saveTaskToStorage task l)[j]? = some l[j]) := by
  constructor
  · intro hmem
    rcases save_eq_set task l hmem with ⟨i, hi, hid, heq⟩
    rw [heq]
    refine ⟨by simp, ?_⟩
    intro j hj hne
    have hij : i ≠ j := by
      intro hc
      subst hc
      exact hne hid
    have hj2 : j < (l.set i task).length := by simpa using hj
    rw [List.getElem?_eq_getElem hj2, List.getElem_set_ne hij]
  · intro hnot
    have heq := save_eq_append task l hnot
    rw [heq]
    refine ⟨rfl, by simp, ?_⟩
    intro j hj
    rw [List.getElem?_append_left hj, List.getElem?_eq_getElem hj]

/-- C10 witness at concrete inputs: replacing the record with id "job1" leaves
the record with id "job2" in place, and a fresh id is appended after the
untouched existing record. -/
theorem C10_save_frame_witness :
    ((saveTaskToStorage sampleSucc [samplePend, sampleOther]).length = 2
      ∧ (saveTaskToStorage sampleSucc [samplePend, sampleOther])[1]? =
          some sampleOther)
    ∧ saveTaskToStorage sampleOther [samplePend] = [samplePend] ++ [sampleOther] :=
  ⟨⟨((C10_save_frame sampleSucc [samplePend, sampleOther]).1 (by decide)).1,
    ((C10_save_frame sampleSucc [samplePend, sampleOther]).1 (by decide)).2
      1 (by decide) (by decide)⟩,
    ((C10_save_frame sampleOther [samplePend]).2 (by decide)).1⟩

end RunwayAvatars

namespace RunwayAvatars

/-- C1: the background loop continues exactly while the last fetched status is
outside the guard set SUCCEEDED or FAILED — it stops with no further fetch or
persist once a fetched status is in that set, performs another
sleep-fetch-persist iteration for any status outside it (CANCELLED and
THROTTLED included), and an always-CANCELLED job is polled forever. -/
theorem C1_poll_guard_terminal_set (retrieve : Nat → generatedAvatar)
    (i fuel : Nat) (store : List generatedAvatar) :
    (continuePolling (retrieve i) = false ↔
      (retrieve i).status = Status.SUCCEEDED ∨
        (retrieve i).status = Status.FAILED)
    ∧ (continuePolling (retrieve i) = false →
        pollRun retrieve i store (fuel + 1) =
          (saveTaskToStorage (retrieve i) store, true)
        ∧ pollEvents retrieve i (fuel + 1) =
            [PollEvent.sleep 1000, PollEvent.fetch i, PollEvent.persist i])
    ∧ (continuePolling (retrieve i) = true →
        pollEvents retrieve i (fuel + 1 + 1) =
          PollEvent.sleep 1000 :: PollEvent.fetch i :: PollEvent.persist i ::
            pollEvents retrieve (i + 1) (fuel + 1))
    ∧ ((retrieve i).status = Status.CANCELLED ∨
        (retrieve i).status = Status.THROTTLED →
          continuePolling (retrieve i) = true)
    ∧ ((∀ j, i ≤ j → (retrieve j).status = Status.CANCELLED) →
        ∀ f, (pollRun retrieve i store f).2 = false) := by
  refine ⟨continuePolling_eq_false_iff (retrieve i), ?_, ?_, ?_, ?_⟩
  · intro h
    constructor
    · simp [pollRun, h]
    · simp [pollEvents, h]
  · intro h
    simp [pollEvents, h]
  · intro h
    rcases h with h | h <;> simp [continuePolling, guardStatuses, h]
  · intro hall
    suffices h : ∀ f i2 store2,
        (∀ j, i2 ≤ j → (retrieve j).status = Status.CANCELLED) →
        (pollRun retrieve i2 store2 f).2 = false by
      intro f
      exact h f i store hall
    intro f
    induction f with
    | zero =>
      intro i2 store2 h2
      rfl
    | succ f ih =>
      intro i2 store2 h2
      have hcp : continuePolling (retrieve i2) = true := by
        simp [continuePolling, guardStatuses, h2 i2 (Nat.le_refl i2)]
      simp [pollRun, hcp]
      exact ih (i2 + 1) _ (fun j hj => h2 j (by omega))

/-- C1 witness: an always-CANCELLED oracle keeps the loop running after five
iterations, and a SUCCEEDED fetch stops it after one iteration. -/
theorem C1_poll_guard_terminal_set_witness :
    (pollRun (fun _ => sampleCanc) 0 [] 5).2 = false
    ∧ pollRun (fun _ => sampleSucc) 0 [] 4 =
        (saveTaskToStorage sampleSucc [], true) :=
  ⟨(C1_poll_guard_terminal_set (fun _ => sampleCanc) 0 0 []).2.2.2.2
      (fun _ _ => rfl) 5,
    ((C1_poll_guard_terminal_set (fun _ => sampleSucc) 0 3 []).2.1
      (by decide)).1⟩

/-- C4: the listing handler returns exactly the non-null stored records (as a
permutation), pairwise non-decreasing in the createdAt time value, and the
empty input yields the empty output rather than an error. -/
theorem C4_listHandler_sorted (allItems : List (Option generatedAvatar)) :
    (listHandler allItems).Perm (allItems.filterMap (fun item => item))
    ∧ (listHandler allItems).Pairwise
        (fun a b => a.createdAt ≤ b.createdAt)
    ∧ listHandler [] = [] := by
  refine ⟨List.mergeSort_perm _ _, ?_, by simp [listHandler]⟩
  have hs := @List.sorted_mergeSort generatedAvatar
    (fun a b => a.createdAt ≤ b.createdAt)
    (by
      intro a b c h1 h2
      simp only [decide_eq_true_eq] at h1 h2 ⊢
      omega)
    (by
      intro a b
      simp only [Bool.or_eq_true, decide_eq_true_eq]
      omega)
    (allItems.filterMap (fun item => item))
  exact hs.imp (by
    intro a b h
    simpa using h)

end RunwayAvatars

namespace RunwayAvatars

/-- C5: a successful submission returns exactly the record obtained by the one
synchronous confirmation fetch — the same record that was just persisted — and
the response does not depend on the background loop's oracle or on how many
iterations it gets to run. -/
theorem C5_submit_returns_persisted_initial_record (client : RunwayClient)
    (pr1 pr2 : Nat → generatedAvatar) (body : Option ReqBody)
    (store : List generatedAvatar) (fuel1 fuel2 : Nat) (handle : JobHandle)
    (task0 : generatedAvatar)
    (hc : client.create (body.bind ReqBody.url) fixedPrompt 5 =
      Except.ok handle)
    (hr : client.retrieve handle.id = Except.ok task0) :
    (handleGenerate client pr1 body store fuel1).1 = Except.ok task0
    ∧ (generate client body store).store = saveTaskToStorage task0 store
    ∧ (handleGenerate client pr1 body store fuel1).1 =
        (handleGenerate client pr2 body store fuel2).1 := by
  have hg : generate client body store =
      ⟨Except.ok task0, saveTaskToStorage task0 store, 1⟩ := by
    simp [generate, hc, hr]
  refine ⟨?_, by rw [hg], ?_⟩ <;> simp [handleGenerate, hg]

/-- C5 witness: a concrete all-succeeding client returns the pending
confirmation record whether the loop gets one or seven iterations of fuel. -/
theorem C5_submit_returns_persisted_initial_record_witness :
    (handleGenerate cOk (fun _ => sampleSucc) (some ⟨some "u"⟩) [] 1).1 =
      Except.ok samplePend
    ∧ (generate cOk (some ⟨some "u"⟩) []).store =
        saveTaskToStorage samplePend []
    ∧ (handleGenerate cOk (fun _ => sampleSucc) (some ⟨some "u"⟩) [] 1).1 =
        (handleGenerate cOk (fun _ => samplePend) (some ⟨some "u"⟩) [] 7).1 :=
  C5_submit_returns_persisted_initial_record cOk (fun _ => sampleSucc)
    (fun _ => samplePend) (some ⟨some "u"⟩) [] 1 7 ⟨"job1"⟩ samplePend rfl rfl

/-- C6: when the remote create call rejects, the handler catches the failure
and answers with the fixed 500 response whose message leaks nothing of the
underlying error, persists nothing, and does not retry the call. -/
theorem C6_remote_submit_failure_500 (client : RunwayClient)
    (body : Option ReqBody) (store : List generatedAvatar) (e : String)
    (hc : client.create (body.bind ReqBody.url) fixedPrompt 5 =
      Except.error e) :
    (generate client body store).response =
        Except.error ⟨500, "Failed to generate moving avatar"⟩
    ∧ (generate client body store).store = store
    ∧ (generate client body store).createCalls = 1 := by
  refine ⟨?_, ?_, ?_⟩ <;> simp [generate, hc]

/-- C6 witness: a concrete rejecting client yields the fixed 500 response with
an unchanged store and a single create call. -/
theorem C6_remote_submit_failure_500_witness :
    (generate cErr (some ⟨some "u"⟩) [samplePend]).response =
        Except.error ⟨500, "Failed to generate moving avatar"⟩
    ∧ (generate cErr (some ⟨some "u"⟩) [samplePend]).store = [samplePend]
    ∧ (generate cErr (some ⟨some "u"⟩) [samplePend]).createCalls = 1 :=
  C6_remote_submit_failure_500 cErr (some ⟨some "u"⟩) [samplePend]
    "network down" rfl

/-- C3 counterexample: with a body lacking the url field the handler performs
no fast 400 rejection — against a client that accepts the absent reference it
returns a record and persists it, and against a rejecting client the failure
surfaces as the generic 500, not as a 400. -/
theorem C3_counterexample :
    (generate cOk (some ⟨none⟩) []).response = Except.ok samplePend
    ∧ (generate cOk (some ⟨none⟩) []).store = [samplePend]
    ∧ (generate cOk (some ⟨none⟩) []).store ≠ []
    ∧ (generate cErr (some ⟨none⟩) []).response =
        Except.error ⟨500, "Failed to generate moving avatar"⟩ := by
  refine ⟨rfl, rfl, by simp [generate, cOk, saveTaskToStorage], rfl⟩

/-- C3 amended: a submission whose body lacks url is not validated — the
remote create call is still made (exactly once) with the absent reference;
when that call fails the caller receives the generic 500 response and no
record is persisted. -/
theorem C3_amended_no_url_no_fast_fail (client : RunwayClient)
    (body : Option ReqBody) (store : List generatedAvatar) (e : String)
    (hurl : body.bind ReqBody.url = none)
    (hc : client.create none fixedPrompt 5 = Except.error e) :
    (generate client body store).response =
        Except.error ⟨500, "Failed to generate moving avatar"⟩
    ∧ (generate client body store).store = store
    ∧ (generate client body store).createCalls = 1 := by
  refine ⟨?_, ?_, ?_⟩ <;> simp [generate, hurl, hc]

/-- C3 amended witness: concrete rejecting client and url-less body. -/
theorem C3_amended_no_url_no_fast_fail_witness :
    (generate cErr (some ⟨none⟩) []).response =
        Except.error ⟨500, "Failed to generate moving avatar"⟩
    ∧ (generate cErr (some ⟨none⟩) []).store = []
    ∧ (generate cErr (some ⟨none⟩) []).createCalls = 1 :=
  C3_amended_no_url_no_fast_fail cErr (some ⟨none⟩) [] "network down" rfl rfl

/-- C9: for every successful submission the spawned do-while loop performs at
least one full sleep-fetch-persist iteration before its terminal check, even
when the status of the initial confirmation fetch is already terminal. -/
theorem C9_do_while_first_iteration (client : RunwayClient)
    (pollRetrieve : Nat → generatedAvatar) (body : Option ReqBody)
    (store : List generatedAvatar) (fuel : Nat) (handle : JobHandle)
    (task0 : generatedAvatar)
    (hc : client.create (body.bind ReqBody.url) fixedPrompt 5 =
      Except.ok handle)
    (hr : client.retrieve handle.id = Except.ok task0)
    (_hterm : continuePolling task0 = false) :
    (generate client body store).response = Except.ok task0
    ∧ (∃ rest, pollEvents pollRetrieve 0 (fuel + 1) =
        PollEvent.sleep 1000 :: PollEvent.fetch 0 :: PollEvent.persist 0 ::
          rest)
    ∧ 3 ≤ (pollEvents pollRetrieve 0 (fuel + 1)).length := by
  refine ⟨by simp [generate, hc, hr], ⟨_, rfl⟩, ?_⟩
  simp [pollEvents]

/-- C9 witness: a client whose confirmation fetch already reports SUCCEEDED
still yields a loop trace of at least one full iteration. -/
theorem C9_do_while_first_iteration_witness :
    (generate cOkSucc (some ⟨some "u"⟩) []).response = Except.ok sampleSucc
    ∧ (∃ rest, pollEvents (fun _ => sampleSucc) 0 3 =
        PollEvent.sleep 1000 :: PollEvent.fetch 0 :: PollEvent.persist 0 ::
          rest)
    ∧ 3 ≤ (pollEvents (fun _ => sampleSucc) 0 3).length :=
  C9_do_while_first_iteration cOkSucc (fun _ => sampleSucc) (some ⟨some "u"⟩)
    [] 2 ⟨"job1"⟩ sampleSucc rfl rfl (by decide)

end RunwayAvatars

namespace RunwayAvatars

/-- Helper: the loop trace is a concatenation of whole
sleep-fetch-persist blocks with consecutive fetch indices. -/
lemma pollEvents_blocks (retrieve : Nat → generatedAvatar) :
    ∀ fuel i, ∃ n, pollEvents retrieve i fuel =
      ((List.range n).map (fun k =>
        [PollEvent.sleep 1000, PollEvent.fetch (i + k),
         PollEvent.persist (i + k)])).flatten := by
  intro fuel
  induction fuel with
  | zero =>
    intro i
    exact ⟨0, by simp [pollEvents]⟩
  | succ fuel ih =>
    intro i
    by_cases hcp : continuePolling (retrieve i)
    · rcases ih (i + 1) with ⟨n, hn⟩
      refine ⟨n + 1, ?_⟩
      have hmap : (List.range (n + 1)).map (fun k =>
          [PollEvent.sleep 1000, PollEvent.fetch (i + k),
           PollEvent.persist (i + k)]) =
          [PollEvent.sleep 1000, PollEvent.fetch i, PollEvent.persist i] ::
            (List.range n).map (fun k =>
              [PollEvent.sleep 1000, PollEvent.fetch (i + 1 + k),
               PollEvent.persist (i + 1 + k)]) := by
        rw [List.range_succ_eq_map, List.map_cons, List.map_map]
        congr 1
        apply List.map_congr_left
        intro a ha
        have h2 : i + 1 + a = i + (a + 1) := by omega
        simp [Function.comp, h2]
      rw [hmap, List.flatten_cons]
      simp [pollEvents, hcp, hn]
    · refine ⟨1, ?_⟩
      simp [pollEvents, hcp, show List.range 1 = [0] from rfl]

/-- C7 counterexample: at a one-iteration run against a SUCCEEDED oracle, the
source loop emits sleep, then fetch, then persist, which differs from the
claimed fetch-persist-sleep order. -/
theorem C7_counterexample :
    pollEvents (fun _ => sampleSucc) 0 1 =
      [PollEvent.sleep 1000, PollEvent.fetch 0, PollEvent.persist 0]
    ∧ claimedPollEvents (fun _ => sampleSucc) 0 1 =
        [PollEvent.fetch 0, PollEvent.persist 0, PollEvent.sleep 1000]
    ∧ pollEvents (fun _ => sampleSucc) 0 1 ≠
        claimedPollEvents (fun _ => sampleSucc) 0 1 := by
  decide

/-- C7 amended: each iteration of the loop executes the 1-second sleep first,
then the fetch, then the persist, tests the guard only after the body, and the
whole trace is a sequence of such sleep-fetch-persist blocks. -/
theorem C7_amended_iteration_order (retrieve : Nat → generatedAvatar)
    (i fuel : Nat) :
    pollEvents retrieve i (fuel + 1) =
      PollEvent.sleep 1000 :: PollEvent.fetch i :: PollEvent.persist i ::
        (if continuePolling (retrieve i) then pollEvents retrieve (i + 1) fuel
         else [])
    ∧ ∃ n, pollEvents retrieve i fuel =
        ((List.range n).map (fun k =>
          [PollEvent.sleep 1000, PollEvent.fetch (i + k),
           PollEvent.persist (i + k)])).flatten :=
  ⟨rfl, pollEvents_blocks retrieve fuel i⟩

/-- C8 counterexample: the lookup handler raises its 400 error on the empty
string id as well, although that id is not absent. -/
theorem C8_counterexample :
    (lookupHandler cOk (some "") []).1 =
      Except.error ⟨400, "Task ID is required"⟩
    ∧ (some "" : Option String) ≠ none :=
  ⟨rfl, by simp⟩

/-- C8 amended: the lookup handler raises the 400 error iff the id is absent
or the empty string; otherwise it returns the remote fetch result for that id
verbatim, and in every case it neither reads from nor writes to the store. -/
theorem C8_amended_lookup (client : RunwayClient) (taskId : Option String)
    (store store2 : List generatedAvatar) :
    ((lookupHandler client taskId store).1 =
        Except.error ⟨400, "Task ID is required"⟩ ↔
      taskId = none ∨ taskId = some "")
    ∧ (∀ tid, taskId = some tid → tid ≠ "" →
        (lookupHandler client taskId store).1 =
          Except.ok (client.retrieve tid))
    ∧ (lookupHandler client taskId store).2 = store
    ∧ (lookupHandler client taskId store).1 =
        (lookupHandler client taskId store2).1 := by
  cases taskId with
  | none => simp [lookupHandler]
  | some tid =>
    by_cases h : tid = ""
    · subst h
      simp [lookupHandler]
    · simp [lookupHandler, h]

/-- C8 amended witness: a present, non-empty id is proxied directly to the
remote fetch. -/
theorem C8_amended_lookup_witness :
    (lookupHandler cOk (some "abc") []).1 =
      Except.ok (cOk.retrieve "abc") :=
  (C8_amended_lookup cOk (some "abc") [] []).2.1 "abc" rfl (by decide)

end RunwayAvatars
